import Mathlib

/-!
# Verification of the `deadman` daemon core

Shallow embedding of the `deadmand` daemon (src/deadmand/src/main.rs) and the
IPC layer (src/deadman-ipc/src/lib.rs).  The registry is modelled as an
association list (the Rust code uses a `HashMap` guarded by a mutex; every
mutation in the code happens inside one critical section, so the sequential
functional model below is the mutex-serialised semantics).  The two per-monitor
`AtomicBool` flags are modelled as the `removed` / `lock_on_remove` fields of
the registry entry, with hotplug-event delivery and Severe expressed as
explicit state transformers on those fields.
-/

namespace Deadman

/-- Identifies a physical device attachment point (`DeviceKey` in main.rs).
`bus` and `address` are `u8` in Rust; parsing guarantees values below 256. -/
structure DeviceKey where
  bus : Nat
  address : Nat
deriving DecidableEq, Repr

/-- A registry entry (`DeviceMonitor` in main.rs).  The `removed` and
`lock_on_remove` booleans model the two shared `Arc<AtomicBool>` flags. -/
structure DeviceMonitor where
  vendor_id : Nat
  product_id : Nat
  product_name : Option String
  removed : Bool
  lock_on_remove : Bool
deriving DecidableEq, Repr

/-- Transient device lookup result (`DeviceInfo` in main.rs). -/
structure DeviceInfo where
  vendor_id : Nat
  product_id : Nat
  product_name : Option String
deriving DecidableEq, Repr

deriving instance DecidableEq for Except

/-- The daemon registry (`DaemonState` in main.rs): the `HashMap` is modelled
as an association list; key uniqueness is an invariant proved below. -/
structure DaemonState where
  monitors : List (DeviceKey × DeviceMonitor)
deriving DecidableEq, Repr

/-- Models `guard.monitors.contains_key(&key)`. -/
def DaemonState.containsKey (st : DaemonState) (key : DeviceKey) : Bool :=
  st.monitors.any (fun p => p.1 == key)

/-- Models `guard.monitors.insert(key, monitor)` in the only place it is called: the
key has just been checked absent, so insertion appends a fresh entry. -/
def DaemonState.insertMonitor (st : DaemonState) (key : DeviceKey)
    (m : DeviceMonitor) : DaemonState :=
  ⟨st.monitors ++ [(key, m)]⟩

/-- A connected device as reported by USB enumeration (rusb collaborator). -/
structure UsbDevice where
  bus : Nat
  address : Nat
  vendor_id : Nat
  product_id : Nat
  product_name : Option String
deriving DecidableEq, Repr

/-- The environment the daemon consults: hotplug capability and the current
bus enumeration (the rusb collaborator, per the spec's interface contract). -/
structure Env where
  has_hotplug : Bool
  devices : List UsbDevice
deriving Repr

/-! ## String helpers mirroring Rust formatting and parsing -/

/-- Rust `format!("{:03}", n)`: decimal, zero-padded to width 3. -/
def pad3 (n : Nat) : String :=
  let s := toString n
  if s.length ≥ 3 then s else String.mk (List.replicate (3 - s.length) '0') ++ s

/-- Rust `format!("{:04x}", n)`: lowercase hex, zero-padded to width 4. -/
def hex4 (n : Nat) : String :=
  let ds := Nat.toDigits 16 n
  if ds.length ≥ 4 then String.mk ds
  else String.mk (List.replicate (4 - ds.length) '0' ++ ds)

/-- Rust `str::split_whitespace`: maximal runs of non-whitespace characters. -/
def splitWhitespace (s : String) : List String :=
  let groups : List (List Char) :=
    s.toList.foldr
      (fun c acc =>
        if c.isWhitespace then [] :: acc
        else
          match acc with
          | [] => [[c]]
          | g :: gs => (c :: g) :: gs)
      []
  (groups.map String.mk).filter (fun t => !t.isEmpty)

/-- Rust `str::trim`: strip leading and trailing whitespace. -/
def strTrim (s : String) : String :=
  String.mk
    (((s.toList.dropWhile Char.isWhitespace).reverse.dropWhile
        Char.isWhitespace).reverse)

/-- Rust `str::parse::<u8>()`: optional leading `+`, one or more ASCII digits,
value at most 255; anything else is a parse error. -/
def parseU8 (s : String) : Option Nat :=
  let t :=
    match s.toList with
    | '+' :: rest => rest
    | cs => cs
  if t = [] then none
  else if t.all Char.isDigit then
    let n := t.foldl (fun a c => a * 10 + (c.toNat - 48)) 0
    if n ≤ 255 then some n else none
  else none

/-- Models `format_device_summary` in main.rs. -/
def format_device_summary (key : DeviceKey) (vendor_id product_id : Nat)
    (product_name : Option String) : String :=
  let base :=
    "bus " ++ pad3 key.bus ++ " address " ++ pad3 key.address ++ " " ++
      hex4 vendor_id ++ ":" ++ hex4 product_id
  match product_name with
  | some name => base ++ " - " ++ name
  | none => base

/-! ## The daemon operations -/

/-- The lazy purge at the top of `handle_status`:
`guard.monitors.retain(|_, monitor| !monitor.removed)`. -/
def purgeRemoved (st : DaemonState) : DaemonState :=
  ⟨st.monitors.filter (fun p => !p.2.removed)⟩

/-- The status tag chosen for one entry (main.rs lines 121–125). -/
def statusTag (m : DeviceMonitor) : String :=
  if m.removed then "disconnected" else "watching"

/-- One rendered status line (main.rs lines 127–134). -/
def statusLine (key : DeviceKey) (m : DeviceMonitor) : String :=
  format_device_summary key m.vendor_id m.product_id m.product_name ++
    " [" ++ statusTag m ++ "]"

/-- Models `handle_status` in main.rs: purge entries whose removed-flag is set, then
render the remainder (or the fixed empty-registry message). -/
def handle_status (st : DaemonState) : DaemonState × Except String String :=
  let st' := purgeRemoved st
  if st'.monitors.isEmpty then (st', Except.ok "no active tethers")
  else
    (st',
      Except.ok
        (String.intercalate "\n"
          (st'.monitors.map (fun p => statusLine p.1 p.2))))

/-- Models `lookup_device` in main.rs: scan the enumeration for the first device at
(bus, address); absence is the "no device found" error.  Descriptor reads are
modelled as succeeding; a failed product-string read is already reflected in
`product_name = none` of the enumeration entry. -/
def lookup_device (devices : List UsbDevice) (bus address : Nat) :
    Except String DeviceInfo :=
  match devices.find? (fun d => d.bus == bus && d.address == address) with
  | some d => Except.ok ⟨d.vendor_id, d.product_id, d.product_name⟩
  | none =>
      Except.error
        ("no device found on bus " ++ pad3 bus ++ " address " ++ pad3 address)

/-- The monitor record inserted by a successful tether (main.rs lines
193–202): `removed = false`, `lock_on_remove = true`. -/
def tether_monitor (info : DeviceInfo) : DeviceMonitor :=
  ⟨info.vendor_id, info.product_id, info.product_name, false, true⟩

/-- Models `handle_tether` in main.rs: hotplug check, numeric parsing, early
presence check, device lookup, then the re-check-and-insert critical
section.  Returns the post-state and the response. -/
def handle_tether (bus address : String) (env : Env) (st : DaemonState) :
    DaemonState × Except String String :=
  if !env.has_hotplug then
    (st, Except.error "libusb hotplug support is not available on this system")
  else
    match parseU8 bus with
    | none => (st, Except.error ("invalid bus number: " ++ bus))
    | some bus_number =>
      match parseU8 address with
      | none => (st, Except.error ("invalid device id: " ++ address))
      | some device_address =>
        if st.containsKey ⟨bus_number, device_address⟩ then
          (st,
            Except.error
              ("device " ++ pad3 bus_number ++ ":" ++ pad3 device_address ++
                " is already tethered"))
        else
          match lookup_device env.devices bus_number device_address with
          | Except.error e => (st, Except.error e)
          | Except.ok info =>
            if st.containsKey ⟨bus_number, device_address⟩ then
              (st,
                Except.error
                  ("device " ++ pad3 bus_number ++ ":" ++ pad3 device_address
                    ++ " is already tethered"))
            else
              (st.insertMonitor ⟨bus_number, device_address⟩
                  (tether_monitor info),
                Except.ok
                  ("tether active for " ++
                    format_device_summary ⟨bus_number, device_address⟩
                      info.vendor_id info.product_id info.product_name))

/-- Models `handle_severe` in main.rs: empty registry answers the fixed message;
otherwise every monitor's lock-on-remove flag is cleared, its removed flag
set, the map cleared, and the count reported. -/
def handle_severe (st : DaemonState) : DaemonState × Except String String :=
  if st.monitors.isEmpty then (st, Except.ok "no active tethers")
  else
    let cleared := st.monitors.length
    (⟨[]⟩, Except.ok ("cleared " ++ toString cleared ++ " tether(s)"))

/-- The flag writes Severe performs on one monitor, in program order
(main.rs lines 239–240): first `lock_on_remove := false`, then
`removed := true`. -/
def severeFlagWrite (m : DeviceMonitor) : DeviceMonitor :=
  { m with lock_on_remove := false, removed := true }

/-- Models `remove_monitor` in main.rs: a watcher's idempotent self-removal. -/
def remove_monitor (st : DaemonState) (key : DeviceKey) : DaemonState :=
  ⟨st.monitors.filter (fun p => !(p.1 == key))⟩

/-- Models `handle_command` in main.rs: tokenise on whitespace and dispatch. -/
def handle_command (command : String) (env : Env) (st : DaemonState) :
    DaemonState × Except String String :=
  match splitWhitespace command with
  | [] => (st, Except.error "empty command")
  | name :: rest =>
    if name = "status" then
      match rest with
      | [] => handle_status st
      | extra :: _ => (st, Except.error ("unexpected argument: " ++ extra))
    else if name = "tether" then
      match rest with
      | [] => (st, Except.error "missing bus number")
      | [_] => (st, Except.error "missing device id")
      | [bus, address] => handle_tether bus address env st
      | _ :: _ :: extra :: _ =>
          (st, Except.error ("unexpected argument: " ++ extra))
    else if name = "severe" then
      match rest with
      | [] => handle_severe st
      | extra :: _ => (st, Except.error ("unexpected argument: " ++ extra))
    else (st, Except.error ("unknown command: " ++ name))

/-! ## The IPC layer (src/deadman-ipc/src/lib.rs) -/

/-- How the server turns the handler's result into the bytes written back
(lib.rs lines 77–83): an error body gets the "ERR: " tag. -/
def render (r : Except String String) : String :=
  match r with
  | Except.ok body => body
  | Except.error e => "ERR: " ++ e

/-- One served request as the daemon wires it up: the raw request text is
trimmed, dispatched, and the response rendered. -/
def respond (message : String) (env : Env) (st : DaemonState) :
    DaemonState × String :=
  let r := handle_command (strTrim message) env st
  (r.1, render r.2)

/-- The outcome of the `SO_PEERCRED` query in `ensure_same_user`
(lib.rs lines 95–134): the syscall can fail, return credentials of an
unexpected size, or yield the peer's uid. -/
inductive PeerCheck where
  | sockoptError
  | badCredLen
  | cred (uid : Nat)
deriving DecidableEq, Repr

/-- Models `ensure_same_user` in lib.rs: `true` exactly when the peer credentials
were read intact and the peer uid equals the daemon's effective uid. -/
def ensure_same_user (c : PeerCheck) (daemonUid : Nat) : Bool :=
  match c with
  | PeerCheck.sockoptError => false
  | PeerCheck.badCredLen => false
  | PeerCheck.cred uid => uid == daemonUid

/-- Models `handle_client` in lib.rs, parametrised by an arbitrary handler whose
side effect is threaded through `α` (the daemon instantiates `α` with
`DaemonState`).  The first component is the bytes written to the peer:
`none` models a connection closed with zero bytes written, in which case the
handler was never invoked and its state `initial` is untouched.
`readResult` is the outcome of the bounded `stream.read`. -/
def handle_client {α : Type} (c : PeerCheck) (daemonUid : Nat)
    (readResult : Option String) (handler : String → Except String String × α)
    (initial : α) : Option String × α :=
  if ensure_same_user c daemonUid then
    match readResult with
    | none => (none, initial)
    | some msg =>
      let r := handler (strTrim msg)
      (some (render r.1), r.2)
  else (none, initial)

/-! ## The per-device watcher (hotplug callbacks and poll loop) -/

/-- A hotplug event as delivered by the subsystem: the attachment point it
concerns plus the vendor/product pair the registration filter sees. -/
structure UsbEvent where
  bus : Nat
  address : Nat
  vendor_id : Nat
  product_id : Nat
deriving DecidableEq, Repr

/-- Models `SelectedDeviceWatcher::device_arrived` (main.rs lines 489–501) as a
transformer of the shared removed-flag: clear it exactly when the event's
bus and address both equal this monitor's key. -/
def SelectedDeviceWatcher.device_arrived (key : DeviceKey) (flag : Bool)
    (ebus eaddress : Nat) : Bool :=
  if ebus == key.bus && eaddress == key.address then false else flag

/-- Models `SelectedDeviceWatcher::device_left` (main.rs lines 503–515): set the
removed-flag exactly when the event's bus and address both match. -/
def SelectedDeviceWatcher.device_left (key : DeviceKey) (flag : Bool)
    (ebus eaddress : Nat) : Bool :=
  if ebus == key.bus && eaddress == key.address then true else flag

/-- Registry-level effect of one arrival event: each monitor whose
vendor/product pair passes its registration filter runs its arrival
callback on its own removed-flag. -/
def applyArrival (st : DaemonState) (e : UsbEvent) : DaemonState :=
  ⟨st.monitors.map (fun p =>
    if e.vendor_id == p.2.vendor_id && e.product_id == p.2.product_id then
      (p.1,
        { p.2 with
          removed :=
            SelectedDeviceWatcher.device_arrived p.1 p.2.removed e.bus
              e.address })
    else p)⟩

/-- Registry-level effect of one departure event, symmetric to
`applyArrival`. -/
def applyDeparture (st : DaemonState) (e : UsbEvent) : DaemonState :=
  ⟨st.monitors.map (fun p =>
    if e.vendor_id == p.2.vendor_id && e.product_id == p.2.product_id then
      (p.1,
        { p.2 with
          removed :=
            SelectedDeviceWatcher.device_left p.1 p.2.removed e.bus
              e.address })
    else p)⟩

/-- One event as seen by a single watcher's callback pair. -/
inductive HotplugEvent where
  | arrived (e : UsbEvent)
  | left (e : UsbEvent)
deriving DecidableEq, Repr

/-- The result of one `context.handle_events` call inside the poll loop:
either a batch of delivered events or a fatal subsystem error. -/
inductive PumpResult where
  | events (evs : List HotplugEvent)
  | fatal
deriving DecidableEq, Repr

/-- What one delivered event does to one watcher's removed-flag: the
registration filter (vendor/product) gates the callback, whose body
re-checks bus/address. -/
def callbackStep (key : DeviceKey) (vid pid : Nat) (flag : Bool)
    (ev : HotplugEvent) : Bool :=
  match ev with
  | HotplugEvent.arrived e =>
    if e.vendor_id == vid && e.product_id == pid then
      SelectedDeviceWatcher.device_arrived key flag e.bus e.address
    else flag
  | HotplugEvent.left e =>
    if e.vendor_id == vid && e.product_id == pid then
      SelectedDeviceWatcher.device_left key flag e.bus e.address
    else flag

/-- The poll loop of `monitor_device` (main.rs lines 335–340) run against a
schedule of pump results.  Returns `some (removedAtExit, exitedByFatal)`
when the loop exits, `none` when the schedule is exhausted with the watcher
still polling.  The loop head re-checks the removed-flag before every
pump, exactly as `while !removed.load(..)` does. -/
def pollLoop (key : DeviceKey) (vid pid : Nat) (removed : Bool) :
    List PumpResult → Option (Bool × Bool)
  | [] => if removed then some (true, false) else none
  | p :: rest =>
    if removed then some (true, false)
    else
      match p with
      | PumpResult.fatal => some (removed, true)
      | PumpResult.events evs =>
        pollLoop key vid pid (evs.foldl (callbackStep key vid pid) removed) rest

/-- What a finished watcher did on its way out (main.rs lines 342–356). -/
structure WatcherOutcome where
  removedAtExit : Bool
  exitedByFatal : Bool
  lockerInvoked : Bool
  deregistered : Bool
deriving DecidableEq, Repr

/-- Models `monitor_device` after a successful callback registration (main.rs
lines 333–356): run the poll loop over the pump schedule; on exit, drop the
registration, invoke the session locker exactly when the removed-flag reads
true with lock-on-remove still true, and self-remove from the registry. -/
def monitor_device (st : DaemonState) (key : DeviceKey) (vid pid : Nat)
    (lock_on_remove : Bool) (removed0 : Bool) (pumps : List PumpResult) :
    Option (DaemonState × WatcherOutcome) :=
  match pollLoop key vid pid removed0 pumps with
  | none => none
  | some (r, fatal) =>
    some (remove_monitor st key,
      ⟨r, fatal, r && lock_on_remove, true⟩)

/-- The check deciding whether the session locker runs after the poll loop
exits (main.rs lines 344–345): removed-flag true and lock-on-remove still
true. -/
def monitorLockDecision (removed lock_on_remove : Bool) : Bool :=
  removed && lock_on_remove

/-- The sequence of flag states a tethered monitor passes through while
Severe runs (main.rs lines 238–240): index 0 before Severe touches it,
index 1 after `lock_on_remove.store(false)`, index 2 and beyond after
`removed.store(true)`.  Both stores are SeqCst, in this program order. -/
def severeFlagAt (m : DeviceMonitor) (i : Nat) : DeviceMonitor :=
  if i = 0 then m
  else if i = 1 then { m with lock_on_remove := false }
  else { m with lock_on_remove := false, removed := true }

/-! ## Sequential operation traces over the registry -/

/-- One serialised operation against the shared registry: the three
commands, a watcher's self-removal, and hotplug event delivery. -/
inductive Op where
  | status
  | tether (bus address : String) (env : Env)
  | severe
  | monitorCleanup (key : DeviceKey)
  | arrival (e : UsbEvent)
  | departure (e : UsbEvent)

/-- The registry transition each operation performs. -/
def step (st : DaemonState) (op : Op) : DaemonState :=
  match op with
  | Op.status => (handle_status st).1
  | Op.tether bus address env => (handle_tether bus address env st).1
  | Op.severe => (handle_severe st).1
  | Op.monitorCleanup key => remove_monitor st key
  | Op.arrival e => applyArrival st e
  | Op.departure e => applyDeparture st e

/-- The wire-protocol grammar (spec §6): a request is grammatical when its
whitespace tokens are exactly `status`, `severe`, or `tether bus address`. -/
def grammaticalCommand (msg : String) : Prop :=
  splitWhitespace msg = ["status"] ∨ splitWhitespace msg = ["severe"] ∨
  ∃ bus address, splitWhitespace msg = ["tether", bus, address]

/-- Key uniqueness: no two registry entries share a `DeviceKey`. -/
def keysNodup (st : DaemonState) : Prop :=
  (st.monitors.map Prod.fst).Nodup

instance (st : DaemonState) : Decidable (keysNodup st) := by
  unfold keysNodup
  infer_instance

/-! ## Helper lemmas -/

theorem containsKey_eq_false_iff (st : DaemonState) (key : DeviceKey) :
    st.containsKey key = false ↔ key ∉ st.monitors.map Prod.fst := by
  unfold DaemonState.containsKey
  rw [← Bool.not_eq_true, List.any_eq_true]
  constructor
  · intro h hmem
    rcases List.mem_map.mp hmem with ⟨p, hp, hfst⟩
    exact h ⟨p, hp, by simp [hfst]⟩
  · rintro h ⟨p, hp, hbeq⟩
    exact h (List.mem_map.mpr ⟨p, hp, by simpa using hbeq⟩)

theorem filter_key_eq_nil {st : DaemonState} {key : DeviceKey}
    (h : st.containsKey key = false) :
    st.monitors.filter (fun p => p.1 == key) = [] := by
  rw [List.filter_eq_nil_iff]
  intro p hp hbeq
  have hne := (containsKey_eq_false_iff st key).mp h
  exact hne (List.mem_map.mpr ⟨p, hp, by simpa using hbeq⟩)

theorem handle_status_fst (st : DaemonState) :
    (handle_status st).1 = purgeRemoved st := by
  simp only [handle_status]
  split <;> rfl

theorem handle_tether_cases (bus address : String) (env : Env)
    (st : DaemonState) :
    (handle_tether bus address env st).1 = st ∨
    ∃ key info, st.containsKey key = false ∧
      handle_tether bus address env st =
        (st.insertMonitor key (tether_monitor info),
          Except.ok
            ("tether active for " ++
              format_device_summary key info.vendor_id info.product_id
                info.product_name)) := by
  unfold handle_tether
  repeat' split
  all_goals try exact Or.inl rfl
  refine Or.inr ⟨_, _, ?_, rfl⟩
  simp_all

theorem handle_tether_error_fst {bus address : String} {env : Env}
    {st : DaemonState} {e : String}
    (h : (handle_tether bus address env st).2 = Except.error e) :
    (handle_tether bus address env st).1 = st := by
  rcases handle_tether_cases bus address env st with hc | ⟨key, info, _, hc⟩
  · exact hc
  · rw [hc] at h
    exact absurd h (by simp)

/-! ## Claim theorems -/

/-- C1: a tether request on a key absent from the registry whose device
lookup succeeds, succeeds; afterwards the registry holds exactly one entry
for that key, with removed-flag false and lock-on-remove true, and the
response is the confirmation line containing the formatted device
summary. -/
theorem tether_fresh_key_inserts_single_entry
    (bus address : String) (env : Env) (st : DaemonState)
    (b a : Nat) (info : DeviceInfo)
    (hh : env.has_hotplug = true)
    (hb : parseU8 bus = some b)
    (ha : parseU8 address = some a)
    (habs : st.containsKey ⟨b, a⟩ = false)
    (hlook : lookup_device env.devices b a = Except.ok info) :
    handle_tether bus address env st =
      (st.insertMonitor ⟨b, a⟩ (tether_monitor info),
        Except.ok
          ("tether active for " ++
            format_device_summary ⟨b, a⟩ info.vendor_id info.product_id
              info.product_name)) ∧
    (handle_tether bus address env st).1.monitors.filter
        (fun p => p.1 == (⟨b, a⟩ : DeviceKey)) =
      [(⟨b, a⟩, tether_monitor info)] ∧
    (tether_monitor info).removed = false ∧
    (tether_monitor info).lock_on_remove = true := by
  have hmain :
      handle_tether bus address env st =
        (st.insertMonitor ⟨b, a⟩ (tether_monitor info),
          Except.ok
            ("tether active for " ++
              format_device_summary ⟨b, a⟩ info.vendor_id info.product_id
                info.product_name)) := by
    simp [handle_tether, hh, hb, ha, habs, hlook]
  refine ⟨hmain, ?_, rfl, rfl⟩
  rw [hmain]
  simp only [DaemonState.insertMonitor, List.filter_append,
    filter_key_eq_nil habs]
  simp

/-- Witness for C1 at a concrete environment holding one device. -/
theorem tether_fresh_key_inserts_single_entry_witness :
    handle_tether "1" "2" ⟨true, [⟨1, 2, 10, 20, some "Key"⟩]⟩ ⟨[]⟩ =
      ((⟨[]⟩ : DaemonState).insertMonitor ⟨1, 2⟩
          (tether_monitor ⟨10, 20, some "Key"⟩),
        Except.ok
          ("tether active for " ++
            format_device_summary ⟨1, 2⟩ 10 20 (some "Key"))) :=
  (tether_fresh_key_inserts_single_entry "1" "2"
    ⟨true, [⟨1, 2, 10, 20, some "Key"⟩]⟩ ⟨[]⟩ 1 2 ⟨10, 20, some "Key"⟩
    (by decide) (by decide) (by decide) (by decide) (by decide)).1

theorem keysNodup_filter (st : DaemonState)
    (p : DeviceKey × DeviceMonitor → Bool) (h : keysNodup st) :
    keysNodup ⟨st.monitors.filter p⟩ := by
  unfold keysNodup at *
  exact List.Nodup.sublist ((st.monitors.filter_sublist).map Prod.fst) h

theorem keysNodup_insert (st : DaemonState) (key : DeviceKey)
    (m : DeviceMonitor) (h : keysNodup st)
    (habs : st.containsKey key = false) :
    keysNodup (st.insertMonitor key m) := by
  unfold keysNodup DaemonState.insertMonitor at *
  rw [List.map_append, List.nodup_append]
  refine ⟨h, List.nodup_singleton key, ?_⟩
  intro a ha hb
  rw [List.map_singleton, List.mem_singleton] at hb
  exact (containsKey_eq_false_iff st key).mp habs (by rwa [hb] at ha)

theorem map_fst_applyArrival (st : DaemonState) (e : UsbEvent) :
    (applyArrival st e).monitors.map Prod.fst =
      st.monitors.map Prod.fst := by
  unfold applyArrival
  simp only [List.map_map]
  apply List.map_congr_left
  intro p _
  simp only [Function.comp]
  split <;> rfl

theorem map_fst_applyDeparture (st : DaemonState) (e : UsbEvent) :
    (applyDeparture st e).monitors.map Prod.fst =
      st.monitors.map Prod.fst := by
  unfold applyDeparture
  simp only [List.map_map]
  apply List.map_congr_left
  intro p _
  simp only [Function.comp]
  split <;> rfl

theorem handle_severe_fst (st : DaemonState) :
    (handle_severe st).1 = if st.monitors.isEmpty then st else ⟨[]⟩ := by
  unfold handle_severe
  split <;> rfl

theorem keysNodup_step (st : DaemonState) (op : Op) (h : keysNodup st) :
    keysNodup (step st op) := by
  cases op with
  | status =>
    simp only [step, handle_status_fst]
    exact keysNodup_filter st _ h
  | tether bus address env =>
    rcases handle_tether_cases bus address env st with
      hc | ⟨key, info, habs, hc⟩
    · simpa only [step, hc] using h
    · simp only [step, hc]
      exact keysNodup_insert st key (tether_monitor info) h habs
  | severe =>
    simp only [step, handle_severe_fst]
    split
    · exact h
    · simp [keysNodup]
  | monitorCleanup key =>
    exact keysNodup_filter st _ h
  | arrival e =>
    unfold keysNodup
    simp only [step]
    rw [map_fst_applyArrival]
    exact h
  | departure e =>
    unfold keysNodup
    simp only [step]
    rw [map_fst_applyDeparture]
    exact h

theorem keysNodup_foldl (ops : List Op) (st : DaemonState)
    (h : keysNodup st) : keysNodup (ops.foldl step st) := by
  induction ops generalizing st with
  | nil => exact h
  | cons op rest ih => exact ih _ (keysNodup_step st op h)

/-- C2: a tether request for a key already present in the registry fails
with the "already tethered" conflict error and leaves the registry as it
was; moreover no sequence of serialised operations starting from the empty
registry ever produces two registry entries for the same `DeviceKey`. -/
theorem tether_conflict_and_key_uniqueness :
    (∀ (bus address : String) (env : Env) (st : DaemonState) (b a : Nat),
        env.has_hotplug = true → parseU8 bus = some b →
        parseU8 address = some a →
        st.containsKey ⟨b, a⟩ = true →
        handle_tether bus address env st =
          (st,
            Except.error
              ("device " ++ pad3 b ++ ":" ++ pad3 a ++
                " is already tethered"))) ∧
    ∀ ops : List Op, keysNodup (ops.foldl step ⟨[]⟩) := by
  constructor
  · intro bus address env st b a hh hb ha hpres
    simp [handle_tether, hh, hb, ha, hpres]
  · intro ops
    exact keysNodup_foldl ops ⟨[]⟩ (by simp [keysNodup])

/-- Witness for C2 on a registry already holding the requested key. -/
theorem tether_conflict_and_key_uniqueness_witness :
    handle_tether "1" "2" ⟨true, []⟩
        ⟨[(⟨1, 2⟩, tether_monitor ⟨5, 6, none⟩)]⟩ =
      (⟨[(⟨1, 2⟩, tether_monitor ⟨5, 6, none⟩)]⟩,
        Except.error
          ("device " ++ pad3 1 ++ ":" ++ pad3 2 ++ " is already tethered")) :=
  tether_conflict_and_key_uniqueness.1 "1" "2" ⟨true, []⟩
    ⟨[(⟨1, 2⟩, tether_monitor ⟨5, 6, none⟩)]⟩ 1 2 rfl (by decide)
    (by decide) (by decide)

/-- C3: every failing tether request leaves the registry unchanged, and
each failure mode — hotplug capability absent, invalid numeric field,
device not found on the bus, key already tethered — reports an error
naming its cause. -/
theorem tether_failure_leaves_registry_unchanged :
    (∀ (bus address : String) (env : Env) (st : DaemonState) (e : String),
        (handle_tether bus address env st).2 = Except.error e →
        (handle_tether bus address env st).1 = st) ∧
    (∀ (bus address : String) (env : Env) (st : DaemonState),
        env.has_hotplug = false →
        handle_tether bus address env st =
          (st,
            Except.error
              "libusb hotplug support is not available on this system")) ∧
    (∀ (bus address : String) (env : Env) (st : DaemonState),
        env.has_hotplug = true → parseU8 bus = none →
        handle_tether bus address env st =
          (st, Except.error ("invalid bus number: " ++ bus))) ∧
    (∀ (bus address : String) (env : Env) (st : DaemonState) (b : Nat),
        env.has_hotplug = true → parseU8 bus = some b →
        parseU8 address = none →
        handle_tether bus address env st =
          (st, Except.error ("invalid device id: " ++ address))) ∧
    (∀ (bus address : String) (env : Env) (st : DaemonState) (b a : Nat),
        env.has_hotplug = true → parseU8 bus = some b →
        parseU8 address = some a → st.containsKey ⟨b, a⟩ = false →
        env.devices.find? (fun d => d.bus == b && d.address == a) = none →
        handle_tether bus address env st =
          (st,
            Except.error
              ("no device found on bus " ++ pad3 b ++ " address " ++
                pad3 a))) ∧
    (∀ (bus address : String) (env : Env) (st : DaemonState) (b a : Nat),
        env.has_hotplug = true → parseU8 bus = some b →
        parseU8 address = some a → st.containsKey ⟨b, a⟩ = true →
        handle_tether bus address env st =
          (st,
            Except.error
              ("device " ++ pad3 b ++ ":" ++ pad3 a ++
                " is already tethered"))) := by
  refine ⟨?_, ?_, ?_, ?_, ?_, ?_⟩
  · intro bus address env st e h
    exact handle_tether_error_fst h
  · intro bus address env st hh
    simp [handle_tether, hh]
  · intro bus address env st hh hb
    simp [handle_tether, hh, hb]
  · intro bus address env st b hh hb ha
    simp [handle_tether, hh, hb, ha]
  · intro bus address env st b a hh hb ha habs hfind
    simp [handle_tether, hh, hb, ha, habs, lookup_device, hfind]
  · intro bus address env st b a hh hb ha hpres
    simp [handle_tether, hh, hb, ha, hpres]

/-- Witness for C3: the capability failure on a hotplug-free platform. -/
theorem tether_failure_leaves_registry_unchanged_witness :
    handle_tether "1" "2" ⟨false, []⟩ ⟨[]⟩ =
      (⟨[]⟩,
        Except.error
          "libusb hotplug support is not available on this system") :=
  tether_failure_leaves_registry_unchanged.2.1 "1" "2" ⟨false, []⟩ ⟨[]⟩ rfl

/-- C10: Status first purges every entry whose removed-flag is set, so each
entry that remains for rendering has removed = false, its tag is
"watching", and its rendered line carries "[watching]"; the "disconnected"
branch of the tag computation is unreachable. -/
theorem status_watching_only (st : DaemonState) :
    (handle_status st).1 = purgeRemoved st ∧
    ∀ p ∈ (purgeRemoved st).monitors,
      p.2.removed = false ∧ statusTag p.2 = "watching" ∧
      statusLine p.1 p.2 =
        format_device_summary p.1 p.2.vendor_id p.2.product_id
          p.2.product_name ++ " [watching]" := by
  refine ⟨handle_status_fst st, ?_⟩
  intro p hp
  have hrem : p.2.removed = false := by
    have hmem := List.mem_filter.mp hp
    simpa using hmem.2
  have hw : " [" ++ ("watching" ++ "]") = (" [watching]" : String) := by
    decide
  exact ⟨hrem, by simp [statusTag, hrem],
    by simp [statusLine, statusTag, hrem, String.append_assoc, hw]⟩

/-- Witness for C10 on a one-entry registry. -/
theorem status_watching_only_witness :
    statusTag (tether_monitor ⟨5, 6, none⟩) = "watching" :=
  ((status_watching_only ⟨[(⟨1, 2⟩, tether_monitor ⟨5, 6, none⟩)]⟩).2
    (⟨1, 2⟩, tether_monitor ⟨5, 6, none⟩) (by decide)).2.1

/-- C4 counterexample: on the empty registry (zero tracked entries) Severe
does not return the cleared count 0; it answers the fixed
"no active tethers" message instead. -/
theorem severe_empty_returns_message_not_count :
    (handle_severe ⟨[]⟩).2 = Except.ok "no active tethers" ∧
    (handle_severe ⟨[]⟩).2 ≠ Except.ok "cleared 0 tether(s)" := by
  decide

/-- C4 (amended): Severe on a registry with at least one tracked entry
returns the cleared count N as "cleared N tether(s)"; on an empty registry
it returns "no active tethers" without a count; in every case the registry
is left empty and a status call executed immediately afterwards returns
"no active tethers". -/
theorem severe_clears_registry (st : DaemonState) :
    (st.monitors ≠ [] →
      (handle_severe st).2 =
        Except.ok
          ("cleared " ++ toString st.monitors.length ++ " tether(s)")) ∧
    (st.monitors = [] →
      (handle_severe st).2 = Except.ok "no active tethers") ∧
    (handle_severe st).1.monitors = [] ∧
    (handle_status (handle_severe st).1).2 =
      Except.ok "no active tethers" := by
  by_cases h : st.monitors = []
  · refine ⟨fun hne => absurd h hne, fun _ => ?_, ?_, ?_⟩
    · simp [handle_severe, h]
    · simp [handle_severe, h]
    · simp [handle_severe, handle_status, purgeRemoved, h]
  · have hne : st.monitors.isEmpty = false := by
      simpa [List.isEmpty_iff] using h
    refine ⟨fun _ => ?_, fun hc => absurd hc h, ?_, ?_⟩
    · simp [handle_severe, hne]
    · simp [handle_severe, hne]
    · simp [handle_severe, handle_status, purgeRemoved, hne]

/-- Witness for the amended C4 on a one-entry registry. -/
theorem severe_clears_registry_witness :
    (handle_severe ⟨[(⟨1, 2⟩, tether_monitor ⟨5, 6, none⟩)]⟩).2 =
      Except.ok ("cleared " ++ toString (1 : Nat) ++ " tether(s)") ∧
    (handle_severe ⟨[(⟨1, 2⟩, tether_monitor ⟨5, 6, none⟩)]⟩).1.monitors =
      [] :=
  ⟨(severe_clears_registry ⟨[(⟨1, 2⟩, tether_monitor ⟨5, 6, none⟩)]⟩).1
      (by decide),
    (severe_clears_registry ⟨[(⟨1, 2⟩, tether_monitor ⟨5, 6, none⟩)]⟩).2.2.1⟩

/-- C5: in a tether-then-Severe execution the session locker is never
invoked.  A monitor created by tether starts at flag state index 0; Severe
first clears lock-on-remove (index 1) and only then sets the removed-flag
(index 2).  The watcher reads the removed-flag at some point i and the
lock-on-remove flag at a later point j; whenever it observes removal, the
lock flag was already cleared, so the lock decision (main.rs 344–345) is
false for every such pair of read points. -/
theorem tether_then_severe_never_locks
    (info : DeviceInfo) (i j : Nat) (hij : i ≤ j) :
    monitorLockDecision (severeFlagAt (tether_monitor info) i).removed
      (severeFlagAt (tether_monitor info) j).lock_on_remove = false := by
  unfold monitorLockDecision severeFlagAt tether_monitor
  rcases i with _ | i
  · simp
  rcases i with _ | i
  · simp
  have hj0 : j ≠ 0 := by omega
  have hj1 : j ≠ 1 := by omega
  simp [hj0, hj1]

/-- Witness for C5: the watcher reads both flags after Severe finished. -/
theorem tether_then_severe_never_locks_witness :
    monitorLockDecision
      (severeFlagAt (tether_monitor ⟨5, 6, none⟩) 2).removed
      (severeFlagAt (tether_monitor ⟨5, 6, none⟩) 3).lock_on_remove =
      false :=
  tether_then_severe_never_locks ⟨5, 6, none⟩ 2 3 (by decide)

theorem pollLoop_fatal_removed_false (key : DeviceKey) (vid pid : Nat) :
    ∀ (pumps : List PumpResult) (removed r : Bool),
      pollLoop key vid pid removed pumps = some (r, true) → r = false := by
  intro pumps
  induction pumps with
  | nil =>
    intro removed r h
    by_cases hr : removed = true <;> simp [pollLoop, hr] at h
  | cons p rest ih =>
    intro removed r h
    cases p with
    | fatal =>
      by_cases hr : removed = true
      · simp [pollLoop, hr] at h
      · rw [pollLoop] at h
        simp [hr] at h
        exact h
    | events evs =>
      by_cases hr : removed = true
      · simp [pollLoop, hr] at h
      · rw [pollLoop] at h
        simp [hr] at h
        exact ih _ _ h

theorem containsKey_remove_monitor (st : DaemonState) (key : DeviceKey) :
    (remove_monitor st key).containsKey key = false := by
  rw [← Bool.not_eq_true, DaemonState.containsKey, List.any_eq_true]
  rintro ⟨p, hp, hbeq⟩
  have hmem := List.mem_filter.mp hp
  have hne : ¬(p.1 == key) = true := by simpa using hmem.2
  exact hne hbeq

/-- C6: whenever the watcher's poll loop exits, the session locker is
invoked exactly when the removed-flag reads true with lock-on-remove still
true; an exit caused by a fatal event-pump error never locks; and every
exit path deregisters the callback and removes the watcher's key from the
registry. -/
theorem monitor_exit_contract (st : DaemonState) (key : DeviceKey)
    (vid pid : Nat) (lock removed0 : Bool) (pumps : List PumpResult)
    (st' : DaemonState) (o : WatcherOutcome)
    (h : monitor_device st key vid pid lock removed0 pumps =
      some (st', o)) :
    o.lockerInvoked = monitorLockDecision o.removedAtExit lock ∧
    (o.exitedByFatal = true → o.lockerInvoked = false) ∧
    o.deregistered = true ∧
    st' = remove_monitor st key ∧
    st'.containsKey key = false := by
  unfold monitor_device at h
  cases hp : pollLoop key vid pid removed0 pumps with
  | none => rw [hp] at h; exact absurd h (by simp)
  | some pr =>
    rcases pr with ⟨r, fatal⟩
    rw [hp] at h
    simp only [Option.some.injEq, Prod.mk.injEq] at h
    obtain ⟨hst, ho⟩ := h
    subst hst
    subst ho
    refine ⟨rfl, ?_, rfl, rfl, containsKey_remove_monitor st key⟩
    intro hf
    have hr : r = false :=
      pollLoop_fatal_removed_false key vid pid pumps removed0 r (hf ▸ hp)
    simp [hr]

/-- Witness for C6: a departure event is pumped, the loop exits with the
removed-flag set, and the watcher locks and cleans up. -/
theorem monitor_exit_contract_witness :
    monitor_device ⟨[(⟨1, 2⟩, tether_monitor ⟨5, 6, none⟩)]⟩ ⟨1, 2⟩ 5 6
        true false [PumpResult.events [HotplugEvent.left ⟨1, 2, 5, 6⟩]] =
      some (⟨[]⟩, ⟨true, false, true, true⟩) ∧
    (⟨[]⟩ : DaemonState).containsKey ⟨1, 2⟩ = false := by
  refine ⟨by decide, ?_⟩
  have h :=
    monitor_exit_contract ⟨[(⟨1, 2⟩, tether_monitor ⟨5, 6, none⟩)]⟩ ⟨1, 2⟩
      5 6 true false [PumpResult.events [HotplugEvent.left ⟨1, 2, 5, 6⟩]]
      ⟨[]⟩ ⟨true, false, true, true⟩ (by decide)
  simpa using h.2.2.2.2

/-- C7: the hotplug callbacks mutate a monitor's removed-flag only when the
event's bus and address both exactly equal the monitor's key — arrival
then clears the flag and departure sets it — and an arrival or departure
event whose bus/address match no tracked key leaves the whole registry
unchanged. -/
theorem hotplug_callback_frame :
    (∀ (key : DeviceKey) (flag : Bool) (ebus eaddress : Nat),
        ¬(ebus = key.bus ∧ eaddress = key.address) →
        SelectedDeviceWatcher.device_arrived key flag ebus eaddress = flag ∧
        SelectedDeviceWatcher.device_left key flag ebus eaddress = flag) ∧
    (∀ (key : DeviceKey) (flag : Bool),
        SelectedDeviceWatcher.device_arrived key flag key.bus key.address =
          false ∧
        SelectedDeviceWatcher.device_left key flag key.bus key.address =
          true) ∧
    (∀ (st : DaemonState) (e : UsbEvent),
        (∀ p ∈ st.monitors, ¬(e.bus = p.1.bus ∧ e.address = p.1.address)) →
        applyDeparture st e = st ∧ applyArrival st e = st) := by
  refine ⟨?_, ?_, ?_⟩
  · intro key flag ebus eaddress hne
    have hc : ¬(ebus == key.bus && eaddress == key.address) = true := by
      simpa using hne
    constructor
    · rw [SelectedDeviceWatcher.device_arrived, if_neg hc]
    · rw [SelectedDeviceWatcher.device_left, if_neg hc]
  · intro key flag
    constructor
    · rw [SelectedDeviceWatcher.device_arrived, if_pos (by simp)]
    · rw [SelectedDeviceWatcher.device_left, if_pos (by simp)]
  · intro st e hall
    rcases st with ⟨l⟩
    constructor
    · show DaemonState.mk _ = DaemonState.mk l
      congr 1
      rw [show (List.map _ l) = l.map id from ?_, List.map_id]
      apply List.map_congr_left
      intro p hp
      have hc : ¬(e.bus == p.1.bus && e.address == p.1.address) = true := by
        simpa using hall p hp
      simp only [SelectedDeviceWatcher.device_left, if_neg hc, id]
      split <;> rfl
    · show DaemonState.mk _ = DaemonState.mk l
      congr 1
      rw [show (List.map _ l) = l.map id from ?_, List.map_id]
      apply List.map_congr_left
      intro p hp
      have hc : ¬(e.bus == p.1.bus && e.address == p.1.address) = true := by
        simpa using hall p hp
      simp only [SelectedDeviceWatcher.device_arrived, if_neg hc, id]
      split <;> rfl

/-- Witness for C7: a departure at an untracked attachment point. -/
theorem hotplug_callback_frame_witness :
    SelectedDeviceWatcher.device_arrived ⟨1, 2⟩ true 3 4 = true ∧
    applyDeparture ⟨[(⟨1, 2⟩, tether_monitor ⟨5, 6, none⟩)]⟩ ⟨9, 9, 5, 6⟩ =
      ⟨[(⟨1, 2⟩, tether_monitor ⟨5, 6, none⟩)]⟩ :=
  ⟨(hotplug_callback_frame.1 ⟨1, 2⟩ true 3 4 (by decide)).1,
    (hotplug_callback_frame.2.2 ⟨[(⟨1, 2⟩, tether_monitor ⟨5, 6, none⟩)]⟩
      ⟨9, 9, 5, 6⟩ (by decide)).1⟩

/-- C8: a request whose text is not a grammatical command never mutates the
registry and is answered with an error; the server tags every handler error
with "ERR: "; in particular the request "foo" yields exactly
"ERR: unknown command: foo". -/
theorem ungrammatical_never_mutates :
    (∀ (msg : String) (env : Env) (st : DaemonState),
        ¬grammaticalCommand msg →
        (handle_command msg env st).1 = st ∧
        ∃ e, (handle_command msg env st).2 = Except.error e) ∧
    (∀ (msg : String) (env : Env) (st : DaemonState) (e : String),
        (handle_command (strTrim msg) env st).2 = Except.error e →
        respond msg env st =
          ((handle_command (strTrim msg) env st).1, "ERR: " ++ e)) ∧
    (∀ (env : Env) (st : DaemonState),
        respond "foo" env st = (st, "ERR: unknown command: foo")) := by
  refine ⟨?_, ?_, ?_⟩
  · intro msg env st hg
    unfold handle_command
    rcases hsw : splitWhitespace msg with _ | ⟨name, rest⟩
    · exact ⟨rfl, _, rfl⟩
    · by_cases h1 : name = "status"
      · subst h1
        cases rest with
        | nil => exact absurd (Or.inl hsw) hg
        | cons x xs => simp
      · by_cases h2 : name = "tether"
        · subst h2
          match rest with
          | [] => simp [h1]
          | [b] => simp [h1]
          | [b, a] => exact absurd (Or.inr (Or.inr ⟨b, a, hsw⟩)) hg
          | b :: a :: x :: xs => simp [h1]
        · by_cases h3 : name = "severe"
          · subst h3
            cases rest with
            | nil => exact absurd (Or.inr (Or.inl hsw)) hg
            | cons x xs => simp [h1, h2]
          · simp [h1, h2, h3]
  · intro msg env st e h
    simp only [respond]
    rw [h]
    rfl
  · intro env st
    have h1 : strTrim "foo" = "foo" := by decide
    have h2 : splitWhitespace "foo" = ["foo"] := by decide
    simp [respond, h1, handle_command, h2, render]

/-- Witness for C8: the concrete ungrammatical request "foo". -/
theorem ungrammatical_never_mutates_witness :
    (handle_command "foo" ⟨true, []⟩ ⟨[]⟩).1 = (⟨[]⟩ : DaemonState) ∧
    ∃ e, (handle_command "foo" ⟨true, []⟩ ⟨[]⟩).2 = Except.error e := by
  apply ungrammatical_never_mutates.1 "foo" ⟨true, []⟩ ⟨[]⟩
  intro hg
  have h2 : splitWhitespace "foo" = ["foo"] := by decide
  rcases hg with h | h | ⟨b, a, h⟩ <;> rw [h2] at h <;> simp at h

/-- C9: a connection whose peer credentials carry an effective uid
different from the daemon's own is closed with zero bytes written and the
command handler is never invoked (its state is returned untouched, for
every handler); a peer with the matching uid is served normally: the
handler runs on the trimmed request and its rendered response is written
back. -/
theorem peer_identity_boundary {α : Type} (daemonUid : Nat)
    (readResult : Option String)
    (handler : String → Except String String × α) (initial : α) :
    (∀ uid : Nat, uid ≠ daemonUid →
        handle_client (PeerCheck.cred uid) daemonUid readResult handler
          initial = (none, initial)) ∧
    (∀ msg : String,
        handle_client (PeerCheck.cred daemonUid) daemonUid (some msg)
          handler initial =
        (some (render (handler (strTrim msg)).1),
          (handler (strTrim msg)).2)) := by
  constructor
  · intro uid hne
    simp [handle_client, ensure_same_user, hne]
  · intro msg
    simp [handle_client, ensure_same_user]

/-- Witness for C9: uid 1 against a daemon running as uid 0 is rejected
with nothing written; uid 0 is served. -/
theorem peer_identity_boundary_witness :
    handle_client (PeerCheck.cred 1) 0 (some "status")
        (fun s => (Except.ok s, (0 : Nat))) 0 = (none, 0) ∧
    handle_client (PeerCheck.cred 0) 0 (some "status")
        (fun s => (Except.ok s, (0 : Nat))) 0 =
      (some (render (Except.ok (strTrim "status"))), 0) :=
  ⟨(peer_identity_boundary 0 (some "status")
      (fun s => (Except.ok s, (0 : Nat))) 0).1 1 (by decide),
    (peer_identity_boundary 0 (some "status")
      (fun s => (Except.ok s, (0 : Nat))) 0).2 "status"⟩

end Deadman
